import Mathlib

/-!
Verification development for the FlowTest server (src/server/src/index.ts).

The development shallowly embeds the two subsystems the specification calls
CORE: the request proxy executor (the `PUT /api/v1/request` handler, its
`newAbortSignal` deadline mechanism and its `convertBase64ToBlob` multipart
helper) and the OpenAPI collection import pipeline (`createCollection` and the
`POST /api/v1/collection` handler).  External library calls (axios dispatch,
`fetch` on a data URL, `SwaggerParser.validate`, `JsonRefs.resolveRefs`) are
modelled at their documented contracts, which the source code's own comments
restate at the catch branches of the proxy handler.
-/

/-! ## Base64 and data-URL decoding

`convertBase64ToBlob` (index.ts lines 40-44) runs `fetch(base64)` on a
base64 data URL and takes the resulting blob.  We model the data-URL fetch:
the string must contain a comma separating a `data:`-prefixed,
`;base64`-suffixed metadata segment from a base64 payload; the payload is
decoded into raw bytes; any deviation is the `TypeError` that `fetch` throws,
an error with a message but with no `code`, no `response` and no `request`
field. -/

/-- Errors of the modelled data-URL fetch. -/
inductive DecodeErr where
  | notDataUrl
  | invalidChar
  | invalidLength
  deriving Repr, DecidableEq

/-- The human-readable message of a decode error (the `TypeError` message). -/
def DecodeErr.message : DecodeErr → String
  | .notDataUrl => "Failed to parse URL"
  | .invalidChar => "Invalid character in base64 payload"
  | .invalidLength => "Invalid base64 payload length"

/-- Pack bytes (big-endian within each 3-byte group) into 6-bit values,
the core of base64 encoding. -/
def bytesToVals : List Nat → List Nat
  | b1 :: b2 :: b3 :: rest =>
      b1 / 4 :: (b1 % 4 * 16 + b2 / 16) :: (b2 % 16 * 4 + b3 / 64) :: b3 % 64 ::
        bytesToVals rest
  | [b1, b2] => [b1 / 4, b1 % 4 * 16 + b2 / 16, b2 % 16 * 4]
  | [b1] => [b1 / 4, b1 % 4 * 16]
  | [] => []

/-- Unpack 6-bit values back into bytes; a leftover group of one value is not
a valid base64 quantity. -/
def valsToBytes : List Nat → Except DecodeErr (List Nat)
  | v1 :: v2 :: v3 :: v4 :: rest =>
      (valsToBytes rest).map (fun tail =>
        (v1 * 4 + v2 / 16) :: (v2 % 16 * 16 + v3 / 4) :: (v3 % 4 * 64 + v4) :: tail)
  | [v1, v2, v3] => .ok [v1 * 4 + v2 / 16, v2 % 16 * 16 + v3 / 4]
  | [v1, v2] => .ok [v1 * 4 + v2 / 16]
  | [_] => .error .invalidLength
  | [] => .ok []

/-- The base64 alphabet, value to character. -/
def valToChar (v : Nat) : Char :=
  if v < 26 then Char.ofNat (65 + v)
  else if v < 52 then Char.ofNat (71 + v)
  else if v < 62 then Char.ofNat (v - 4)
  else if v = 62 then '+'
  else '/'

/-- The base64 alphabet, character to value; `none` for characters outside
the alphabet. -/
def charToVal (c : Char) : Option Nat :=
  if 'A' ≤ c ∧ c ≤ 'Z' then some (c.toNat - 65)
  else if 'a' ≤ c ∧ c ≤ 'z' then some (c.toNat - 71)
  else if '0' ≤ c ∧ c ≤ '9' then some (c.toNat + 4)
  else if c = '+' then some 62
  else if c = '/' then some 63
  else none

/-- Base64 padding characters for a value stream of length `n`. -/
def padChars (n : Nat) : List Char := List.replicate ((4 - n % 4) % 4) '='

/-- Standard base64 encoding of a byte list, padding included. -/
def bytesToB64 (bs : List Nat) : List Char :=
  (bytesToVals bs).map valToChar ++ padChars (bytesToVals bs).length

/-- Remove trailing padding characters. -/
def stripPad (cs : List Char) : List Char :=
  (cs.reverse.dropWhile (fun c => c = '=')).reverse

/-- Map base64 characters to their 6-bit values, failing on a character
outside the alphabet. -/
def charsToVals : List Char → Except DecodeErr (List Nat)
  | [] => .ok []
  | c :: cs =>
      match charToVal c with
      | none => .error .invalidChar
      | some v => (charsToVals cs).map (fun vs => v :: vs)

/-- Base64 decoding of a character list, padding tolerated. -/
def b64Decode (cs : List Char) : Except DecodeErr (List Nat) :=
  match charsToVals (stripPad cs) with
  | .error e => .error e
  | .ok vs => valsToBytes vs

/-- Split a character list at its first comma. -/
def splitAtComma : List Char → Option (List Char × List Char)
  | [] => none
  | c :: rest =>
      if c = ',' then some ([], rest)
      else (splitAtComma rest).map (fun p => (c :: p.1, p.2))

/-- Whether `p` is an initial segment of `l`. -/
def leadsWith : List Char → List Char → Bool
  | [], _ => true
  | _ :: _, [] => false
  | p :: ps, c :: cs => p = c && leadsWith ps cs

/-- Whether the metadata segment of a data URL declares a base64 payload:
it must begin with the scheme marker and end with the base64 marker. -/
def dataUrlMeta (meta : List Char) : Bool :=
  leadsWith ("data:".toList) meta && leadsWith (";base64".toList.reverse) meta.reverse

/-- Data-URL fetch on a character list: split at the first comma, check the
metadata segment, decode the base64 payload. -/
def decodeDataUrlChars (cs : List Char) : Except DecodeErr (List Nat) :=
  match splitAtComma cs with
  | none => .error .notDataUrl
  | some (meta, payload) =>
      if dataUrlMeta meta then b64Decode payload else .error .notDataUrl

/-- Model of `convertBase64ToBlob` (index.ts lines 40-44): fetch a base64
data URL and return its bytes, or the `TypeError` that `fetch` raises on a
string that is not a base64 data URL. -/
def decodeDataUrl (s : String) : Except DecodeErr (List Nat) :=
  decodeDataUrlChars s.toList

/-- A well-formed base64 data URL carrying the given bytes, the shape of the
`req.body.data.value` field the multipart branch expects. -/
def mkDataUrl (bs : List Nat) : String :=
  String.mk ("data:application/octet-stream;base64".toList ++ ',' :: bytesToB64 bs)

/-! ## The proxy executor data model (index.ts lines 172-212) -/

/-- An upstream HTTP response as axios surfaces it (`result` on the success
path, `error.response` on the non-2xx path). -/
structure AxiosResponse where
  status : Nat
  headers : List (String × String)
  data : String
  deriving Repr, DecidableEq

/-- The shape of the error the catch block of `PUT /api/v1/request`
inspects: `error.code`, `error.response`, the truthiness of `error.request`
and `error.message` (an empty string standing for an absent message). -/
structure AxiosError where
  code : Option String
  response : Option AxiosResponse
  requestMade : Bool
  message : String
  deriving Repr, DecidableEq

/-- The single (key, value, name) triple the multipart branch reads from
`req.body.data`: `value` is a base64 data URL and `name` the filename. -/
structure DataField where
  key : String
  value : String
  name : String
  deriving Repr, DecidableEq

/-- The request body's `data` field: either the single triple shape the
multipart branch consumes, or any other JSON value (on which a `.value`
property access yields `undefined`). -/
inductive BodyData where
  | raw (d : DataField)
  | other (s : String)
  deriving Repr, DecidableEq

/-- The part of `req.body` the proxy handler inspects: the header mapping
(a JSON object, so keys are unique) and the `data` field. -/
structure ReqBody where
  headers : List (String × String)
  data : BodyData
  deriving Repr, DecidableEq

/-- JS object property lookup `headers[k]`: exact, case-sensitive string
equality on the key. -/
def headerLookup (hs : List (String × String)) (k : String) : Option String :=
  (hs.find? (fun p => p.1 = k)).map Prod.snd

/-- The multipart dispatch condition of index.ts line 174:
`req.body.headers` at the exact key `Content-type` strictly equals
`multipart/form-data`. -/
def isMultipart (hs : List (String × String)) : Bool :=
  headerLookup hs "Content-type" = some "multipart/form-data"

/-- One part of a form-data body: field name, content bytes, filename
(the three arguments of `requestData.append` at index.ts line 177). -/
structure FormPart where
  fieldName : String
  content : List Nat
  filename : String
  deriving Repr, DecidableEq

/-- The body actually handed to axios: either the `FormData` built by the
multipart branch, or the original body passed through untouched. -/
inductive ProcessedData where
  | formData (parts : List FormPart)
  | passthrough (orig : BodyData)
  deriving Repr, DecidableEq

/-- Body preparation of index.ts lines 174-180: when the multipart dispatch
condition holds, decode `data.value` and build a `FormData` with the single
appended part; a decode failure (or a `data` field with no `.value` string,
on which `fetch(undefined)` throws) is the thrown `TypeError`, an error with
a message but no `code`, `response` or `request`.  Otherwise the body is
passed through unmodified. -/
def prepareData (hs : List (String × String)) (d : BodyData) :
    Except AxiosError ProcessedData :=
  if isMultipart hs then
    match d with
    | .raw t =>
        match decodeDataUrl t.value with
        | .ok bs => .ok (.formData [⟨t.key, bs, t.name⟩])
        | .error e => .error ⟨none, none, false, e.message⟩
    | .other _ => .error ⟨none, none, false, "Failed to parse URL from undefined"⟩
  else .ok (.passthrough d)

/-- What the upstream does on the single outbound call: it answers with a
status, headers and a body; or the request is made but no response ever
arrives (DNS failure, connection refused, connection reset), with a
low-level cause; or it hangs past the deadline, so the abort signal of
`newAbortSignal` cancels the call. -/
inductive UpstreamBehavior where
  | responds (status : Nat) (headers : List (String × String)) (data : String)
  | noResponse (cause : String)
  | hangs
  deriving Repr, DecidableEq

/-- The axios default `validateStatus`: a status is a success exactly when
it lies in the 2xx range. -/
def inSuccessRange (s : Nat) : Bool := decide (200 ≤ s ∧ s < 300)

/-- The error axios throws when the abort signal fires. -/
def canceledError : AxiosError :=
  ⟨some "ERR_CANCELED", none, true, "canceled"⟩

/-- Model of the `await axios(options)` call at index.ts line 188, at the
contract the code's own catch-block comments restate: a 2xx response
resolves; a non-2xx response rejects with `error.response` set to the exact
response received; a transport failure rejects with `error.request` set but
no `error.response`, the cause in `error.code` and `error.message`; an abort
rejects with code `ERR_CANCELED`. -/
def axiosCall (up : UpstreamBehavior) : Except AxiosError AxiosResponse :=
  match up with
  | .responds s h d =>
      if inSuccessRange s then .ok ⟨s, h, d⟩
      else .error ⟨some "ERR_BAD_REQUEST", some ⟨s, h, d⟩, true,
        "Request failed with status code " ++ toString s⟩
  | .noResponse cause => .error ⟨some cause, none, true, cause⟩
  | .hangs => .error canceledError

/-- What `res.status(n).send(x)` puts on the wire in each branch of the
handler: upstream data, the raw error object, the raw `error.request`
object (an `http.ClientRequest`, which does not carry the failure cause),
or an error message string. -/
inductive Sent where
  | data (d : String)
  | errObj (e : AxiosError)
  | reqObj
  | msg (m : String)
  deriving Repr, DecidableEq

/-- The catch block of `PUT /api/v1/request` (index.ts lines 190-211),
branch for branch: `ERR_CANCELED` first (408, the error object), then
`error.response` (the upstream's exact status and data), then
`error.request` (503, the raw request object), then `error.message`
(400, the message), else 500. -/
def renderCatch (e : AxiosError) : Nat × Sent :=
  if e.code = some "ERR_CANCELED" then (408, .errObj e)
  else
    match e.response with
    | some r => (r.status, .data r.data)
    | none =>
        if e.requestMade then (503, .reqObj)
        else if e.message ≠ "" then (400, .msg e.message)
        else (500, .errObj e)

/-- Steps the handler performs, recorded in order: the data-URL decode of
the multipart branch, and the outbound axios network call. -/
inductive Step where
  | decodeStep
  | networkStep
  deriving Repr, DecidableEq

/-- The `PUT /api/v1/request` handler (index.ts lines 172-212): prepare the
body (multipart decode when dispatched), then make the single axios call;
a thrown preparation error short-circuits into the catch block with no
network call; otherwise the axios result is classified by the catch block,
the success path answering `res.status(200).send(result.data)`.  The first
component is the wire response (status, payload); the second the ordered
trace of steps performed. -/
def executeProxy (rb : ReqBody) (up : UpstreamBehavior) :
    (Nat × Sent) × List Step :=
  match prepareData rb.headers rb.data with
  | .error e =>
      (renderCatch e, if isMultipart rb.headers then [Step.decodeStep] else [])
  | .ok _ =>
      match axiosCall up with
      | .ok r =>
          ((200, .data r.data),
            (if isMultipart rb.headers then [Step.decodeStep] else []) ++ [Step.networkStep])
      | .error e =>
          (renderCatch e,
            (if isMultipart rb.headers then [Step.decodeStep] else []) ++ [Step.networkStep])

/-- Whether body preparation succeeds (no multipart decode failure). -/
def prepSucceeds (rb : ReqBody) : Bool :=
  match prepareData rb.headers rb.data with
  | .ok _ => true
  | .error _ => false

/-! ## The deadline mechanism (index.ts lines 23-37) -/

/-- The value the constructor assigns to `this.timeout` (index.ts line 29). -/
def timeoutDefault : Nat := 60000

/-- The per-process mutable state the handler reads: the single `timeout`
field of the `App` instance. -/
structure AppState where
  timeout : Nat
  deriving Repr, DecidableEq

/-- The `App` as constructed (index.ts lines 25-30). -/
def mkApp : AppState := { timeout := timeoutDefault }

/-- `newAbortSignal` (index.ts lines 32-37): the abort fires after
`this.timeout || 0` milliseconds. -/
def newAbortSignalDelay (a : AppState) : Nat :=
  if a.timeout = 0 then 0 else a.timeout

/-- The abort delay used for one proxied request: the handler calls
`this.newAbortSignal()` with no argument (index.ts line 185), so the
request body contributes nothing to it. -/
def requestAbortDelay (a : AppState) (_rb : ReqBody) : Nat :=
  newAbortSignalDelay a

/-! ## The spec's outcome taxonomy (spec sections 4.3 and 7)

These definitions follow the specification's words, for comparison with the
embedded handler: the four execution outcomes and the priority-ordered
classifier. -/

/-- The spec's `ExecutionOutcome` taxonomy for a call that reached the
network: `Success`, `Timeout`, `TransportFailure` (with its diagnostic
cause) and `UpstreamError`. -/
inductive Outcome where
  | success (status : Nat) (headers : List (String × String)) (body : String)
  | timeout
  | transportFailure (cause : String)
  | upstreamError (status : Nat) (body : String)
  deriving Repr, DecidableEq

/-- Classifier written from the spec's priority list, first match winning:
(1) deadline exceeded, (2) no response received, (3) response outside 2xx,
(4) otherwise success.  The three upstream behaviours are mutually
exclusive, so the match order realizes exactly that priority. -/
def specClassify : UpstreamBehavior → Outcome
  | .hangs => .timeout
  | .noResponse cause => .transportFailure cause
  | .responds s h d =>
      if inSuccessRange s then .success s h d else .upstreamError s d

/-- How the handler puts each outcome on the wire: 200 with the body for
success, 408 with the error object for timeout, 503 with the raw request
object for a transport failure (the diagnostic cause is dropped), and the
upstream's own status and data for an upstream error. -/
def renderOutcome : Outcome → Nat × Sent
  | .success _ _ d => (200, .data d)
  | .timeout => (408, .errObj canceledError)
  | .transportFailure _ => (503, .reqObj)
  | .upstreamError s d => (s, .data d)

/-! ## The collection import pipeline (index.ts lines 46-67 and 224-233)

`createCollection` reads the spec text, calls `SwaggerParser.validate`,
then `JsonRefs.resolveRefs`, then `CollectionUtil.parse`, and builds the
`Collection` entity.  The two library calls are abstracted as function
parameters; `CollectionUtil.parse` lives in src/server/src/collection-util.ts,
which is not among the provided sources, so it is modelled from the spec. -/

/-- One API operation of a resolved OpenAPI document: its method, path and
summary, listed in declaration order. -/
structure Operation where
  method : String
  path : String
  summary : String
  deriving Repr, DecidableEq

/-- A fully dereferenced OpenAPI document, reduced to its operation list in
declaration order. -/
structure ResolvedDoc where
  operations : List Operation
  deriving Repr, DecidableEq

/-- Modelled from the spec: the node id CollectionUtil assigns, "derived
deterministically from method + path" (spec section 3, RequestNode); the
source file src/server/src/collection-util.ts is not among the provided
sources. -/
def nodeId (method p : String) : String := method ++ " " ++ p

/-- One request-definition node of a compiled collection. -/
structure RequestNode where
  id : String
  method : String
  path : String
  deriving Repr, DecidableEq

/-- Modelled from the spec: `CollectionUtil.parse` (called at index.ts line
54; its source, src/server/src/collection-util.ts, is not among the provided
sources) walks the resolved spec's operations in declaration order and
emits one `RequestNode` per operation, its id a function of method and
path. -/
def collectionParse (d : ResolvedDoc) : List RequestNode :=
  d.operations.map (fun op =>
    { id := nodeId op.method op.path, method := op.method, path := op.path })

/-- The validated API document, as far as `createCollection` reads it
(`api.info.title` at line 58). -/
structure ApiDoc where
  title : String
  deriving Repr, DecidableEq

/-- The `Collection` entity `createCollection` assembles (index.ts lines
56-62): the API title, the raw spec text kept verbatim, and the parsed
nodes. -/
structure Collection where
  name : String
  collection : String
  nodes : List RequestNode
  deriving Repr, DecidableEq

/-- Stages of the import pipeline, recorded in execution order. -/
inductive ImportStep where
  | validateStep
  | resolveStep
  | parseStep
  deriving Repr, DecidableEq

/-- `createCollection` (index.ts lines 46-67): `SwaggerParser.validate`
first, `JsonRefs.resolveRefs` second, `CollectionUtil.parse` third; any
rejection propagates out of the `await` immediately, so later stages never
run.  The two library calls are the `validate` and `resolveRefs`
parameters; the result pairs the outcome with the ordered stage trace. -/
def createCollection (validate : String → Except String ApiDoc)
    (resolveRefs : ApiDoc → Except String ResolvedDoc)
    (specText : String) : Except String Collection × List ImportStep :=
  match validate specText with
  | .error e => (.error e, [.validateStep])
  | .ok api =>
      match resolveRefs api with
      | .error e => (.error e, [.validateStep, .resolveStep])
      | .ok resolved =>
          (.ok { name := api.title, collection := specText,
                 nodes := collectionParse resolved },
           [.validateStep, .resolveStep, .parseStep])

/-- What `POST /api/v1/collection` sends back: the saved collection as
JSON, or an error text. -/
inductive CollectionResp where
  | okJson (c : Collection)
  | errText (s : String)
  deriving Repr, DecidableEq

/-- The `POST /api/v1/collection` handler (index.ts lines 224-233): on
success the collection is returned as JSON; any error thrown anywhere in
`createCollection` is caught and answered as a 500 with the fixed text
`Failed to parse openapi spec`. -/
def postCollection (validate : String → Except String ApiDoc)
    (resolveRefs : ApiDoc → Except String ResolvedDoc)
    (specText : String) : Nat × CollectionResp :=
  match (createCollection validate resolveRefs specText).1 with
  | .ok c => (200, .okJson c)
  | .error _ => (500, .errText "Failed to parse openapi spec")

/-! ## Concrete inputs used by witnesses and counterexamples -/

/-- A plain JSON-content request body. -/
def rbPlain : ReqBody :=
  { headers := [("Content-type", "application/json")], data := .other "{}" }

/-- A second, distinct plain request body. -/
def rbPlainB : ReqBody :=
  { headers := [("Content-type", "application/json")], data := .other "[1]" }

/-- A multipart request body whose data-URL value does not decode. -/
def rbBadMultipart : ReqBody :=
  { headers := [("Content-type", "multipart/form-data")],
    data := .raw ⟨"file", "not a data url", "f.png"⟩ }

/-- A validator that rejects every document, standing for
`SwaggerParser.validate` on an invalid spec. -/
def validateReject : String → Except String ApiDoc :=
  fun _ => .error "swagger-parser: info is a required property"

/-- A resolver that resolves every document to an empty operation list. -/
def resolveTrivial : ApiDoc → Except String ResolvedDoc :=
  fun _ => .ok { operations := [] }

/-- A validator that accepts every document, standing for
`SwaggerParser.validate` on a valid spec. -/
def validateAccept : String → Except String ApiDoc :=
  fun _ => .ok { title := "Swagger Petstore" }

/-- A resolver that rejects every document, standing for
`JsonRefs.resolveRefs` failing on the validated document. -/
def resolveReject : ApiDoc → Except String ResolvedDoc :=
  fun _ => .error "json-refs: unable to resolve reference"

/-- A resolved document with two operations. -/
def docA : ResolvedDoc :=
  ⟨[⟨"get", "/pets", "list pets"⟩, ⟨"post", "/pets", "create a pet"⟩]⟩

/-- The same operations as `docA` up to method and path, with different
summaries. -/
def docB : ResolvedDoc :=
  ⟨[⟨"get", "/pets", "list all the pets"⟩, ⟨"post", "/pets", "add one pet"⟩]⟩

/-! ## Helper lemmas -/

theorem bytesToVals_lt : ∀ (bs : List Nat), (∀ b ∈ bs, b < 256) →
    ∀ v ∈ bytesToVals bs, v < 64
  | [], _, v, hv => by simp [bytesToVals] at hv
  | [b1], h, v, hv => by
      have h1 : b1 < 256 := h b1 (by simp)
      simp [bytesToVals] at hv
      rcases hv with rfl | rfl <;> omega
  | [b1, b2], h, v, hv => by
      have h1 : b1 < 256 := h b1 (by simp)
      have h2 : b2 < 256 := h b2 (by simp)
      simp [bytesToVals] at hv
      rcases hv with rfl | rfl | rfl <;> omega
  | b1 :: b2 :: b3 :: rest, h, v, hv => by
      have h1 : b1 < 256 := h b1 (by simp)
      have h2 : b2 < 256 := h b2 (by simp)
      have h3 : b3 < 256 := h b3 (by simp)
      have ih := bytesToVals_lt rest (fun b hb => h b (by simp [hb]))
      simp only [bytesToVals, List.mem_cons] at hv
      rcases hv with rfl | rfl | rfl | rfl | hmem
      · omega
      · omega
      · omega
      · omega
      · exact ih v hmem

theorem valsToBytes_bytesToVals : ∀ (bs : List Nat), (∀ b ∈ bs, b < 256) →
    valsToBytes (bytesToVals bs) = Except.ok bs
  | [], _ => rfl
  | [b1], _ => by
      simp only [bytesToVals, valsToBytes, Except.ok.injEq, List.cons.injEq, and_true]
      omega
  | [b1, b2], h => by
      have h2 : b2 < 256 := h b2 (by simp)
      simp only [bytesToVals, valsToBytes, Except.ok.injEq, List.cons.injEq, and_true]
      omega
  | b1 :: b2 :: b3 :: rest, h => by
      have h2 : b2 < 256 := h b2 (by simp)
      have h3 : b3 < 256 := h b3 (by simp)
      have ih := valsToBytes_bytesToVals rest (fun b hb => h b (by simp [hb]))
      simp only [bytesToVals, valsToBytes, ih, Except.map, Except.ok.injEq,
        List.cons.injEq]
      refine ⟨by omega, by omega, by omega, trivial⟩

theorem charToVal_valToChar : ∀ v < 64, charToVal (valToChar v) = some v := by
  decide

theorem valToChar_ne_pad : ∀ v < 64, valToChar v ≠ '=' := by
  decide

theorem dropWhile_replicate_append (p : Char → Bool) (x : Char) (hx : p x = true) :
    ∀ (k : Nat) (l : List Char), (List.replicate k x ++ l).dropWhile p = l.dropWhile p
  | 0, l => by simp
  | k + 1, l => by
      simp [List.replicate, List.dropWhile, hx,
        dropWhile_replicate_append p x hx k l]

theorem dropWhile_eq_self_of (p : Char → Bool) :
    ∀ (l : List Char), (∀ c ∈ l, p c = false) → l.dropWhile p = l
  | [], _ => rfl
  | c :: cs, h => by simp [List.dropWhile, h c (by simp)]

theorem stripPad_encoded (vals : List Nat) (hv : ∀ v ∈ vals, v < 64) (k : Nat) :
    stripPad (vals.map valToChar ++ List.replicate k '=') = vals.map valToChar := by
  unfold stripPad
  rw [List.reverse_append, List.reverse_replicate]
  rw [dropWhile_replicate_append (fun c => c = '=') '=' (by decide) k]
  rw [dropWhile_eq_self_of (fun c => c = '=') ((vals.map valToChar).reverse) ?_]
  · exact List.reverse_reverse _
  · intro c hc
    rw [List.mem_reverse, List.mem_map] at hc
    obtain ⟨v, hvmem, rfl⟩ := hc
    simpa using valToChar_ne_pad v (hv v hvmem)

theorem charsToVals_map_valToChar : ∀ (vals : List Nat), (∀ v ∈ vals, v < 64) →
    charsToVals (vals.map valToChar) = Except.ok vals
  | [], _ => rfl
  | v :: vs, h => by
      have hv : v < 64 := h v (by simp)
      have ih := charsToVals_map_valToChar vs (fun u hu => h u (by simp [hu]))
      simp [charsToVals, charToVal_valToChar v hv, ih, Except.map]

theorem b64Decode_bytesToB64 (bs : List Nat) (h : ∀ b ∈ bs, b < 256) :
    b64Decode (bytesToB64 bs) = Except.ok bs := by
  unfold b64Decode bytesToB64 padChars
  rw [stripPad_encoded _ (bytesToVals_lt bs h) _]
  rw [charsToVals_map_valToChar _ (bytesToVals_lt bs h)]
  exact valsToBytes_bytesToVals bs h

theorem splitAtComma_append : ∀ (pre post : List Char), (∀ c ∈ pre, c ≠ ',') →
    splitAtComma (pre ++ ',' :: post) = some (pre, post)
  | [], post, _ => by simp [splitAtComma]
  | c :: cs, post, h => by
      have hc : c ≠ ',' := h c (by simp)
      simp [splitAtComma, hc,
        splitAtComma_append cs post (fun x hx => h x (by simp [hx]))]

theorem decodeDataUrl_mkDataUrl (bs : List Nat) (h : ∀ b ∈ bs, b < 256) :
    decodeDataUrl (mkDataUrl bs) = Except.ok bs := by
  have hstep : decodeDataUrl (mkDataUrl bs) =
      decodeDataUrlChars ("data:application/octet-stream;base64".toList ++
        ',' :: bytesToB64 bs) := rfl
  rw [hstep]
  unfold decodeDataUrlChars
  rw [splitAtComma_append _ _ (by decide)]
  show (if dataUrlMeta ("data:application/octet-stream;base64".toList) = true
      then b64Decode (bytesToB64 bs) else Except.error DecodeErr.notDataUrl) =
      Except.ok bs
  rw [if_pos (by decide)]
  exact b64Decode_bytesToB64 bs h

theorem decodeErr_message_nonempty : ∀ e : DecodeErr, e.message ≠ "" := by
  intro e
  cases e <;> decide

theorem renderCatch_canceled :
    renderCatch canceledError = (408, Sent.errObj canceledError) := by decide

theorem renderCatch_badStatus (s : Nat) (hh : List (String × String)) (d m : String) :
    renderCatch ⟨some "ERR_BAD_REQUEST", some ⟨s, hh, d⟩, true, m⟩ = (s, Sent.data d) := by
  simp [renderCatch]

theorem renderCatch_noResponse (c m : String) (hc : c ≠ "ERR_CANCELED") :
    renderCatch ⟨some c, none, true, m⟩ = (503, Sent.reqObj) := by
  simp [renderCatch, hc]

theorem renderCatch_noCodeNoResp (m : String) (hm : m ≠ "") :
    renderCatch ⟨none, none, false, m⟩ = (400, Sent.msg m) := by
  simp [renderCatch, hm]

theorem prepSucceeds_ok (rb : ReqBody) (hp : prepSucceeds rb = true) :
    ∃ pd, prepareData rb.headers rb.data = Except.ok pd := by
  unfold prepSucceeds at hp
  cases h : prepareData rb.headers rb.data with
  | ok pd => exact ⟨pd, rfl⟩
  | error e => rw [h] at hp; simp at hp

theorem executeProxy_eq_ok (rb : ReqBody) (up : UpstreamBehavior) (pd : ProcessedData)
    (hpd : prepareData rb.headers rb.data = Except.ok pd) :
    executeProxy rb up =
      (match axiosCall up with
       | .ok r => ((200, Sent.data r.data),
           (if isMultipart rb.headers then [Step.decodeStep] else []) ++ [Step.networkStep])
       | .error e => (renderCatch e,
           (if isMultipart rb.headers then [Step.decodeStep] else []) ++ [Step.networkStep])) := by
  unfold executeProxy
  rw [hpd]

theorem executeProxy_responds_ok (rb : ReqBody) (pd : ProcessedData)
    (hpd : prepareData rb.headers rb.data = Except.ok pd)
    (s : Nat) (hh : List (String × String)) (d : String)
    (hs : inSuccessRange s = true) :
    (executeProxy rb (.responds s hh d)).1 = (200, Sent.data d) := by
  rw [executeProxy_eq_ok rb _ pd hpd]
  simp only [axiosCall]
  rw [if_pos hs]

theorem executeProxy_responds_bad (rb : ReqBody) (pd : ProcessedData)
    (hpd : prepareData rb.headers rb.data = Except.ok pd)
    (s : Nat) (hh : List (String × String)) (d : String)
    (hs : inSuccessRange s = false) :
    (executeProxy rb (.responds s hh d)).1 = (s, Sent.data d) := by
  rw [executeProxy_eq_ok rb _ pd hpd]
  simp only [axiosCall]
  rw [if_neg (show ¬ inSuccessRange s = true from by simp [hs])]
  exact renderCatch_badStatus s hh d ("Request failed with status code " ++ toString s)

theorem executeProxy_noResponse (rb : ReqBody) (pd : ProcessedData)
    (hpd : prepareData rb.headers rb.data = Except.ok pd)
    (c : String) (hc : c ≠ "ERR_CANCELED") :
    (executeProxy rb (.noResponse c)).1 = (503, Sent.reqObj) := by
  rw [executeProxy_eq_ok rb _ pd hpd]
  exact renderCatch_noResponse c c hc

theorem executeProxy_hangs (rb : ReqBody) (pd : ProcessedData)
    (hpd : prepareData rb.headers rb.data = Except.ok pd) :
    (executeProxy rb .hangs).1 = (408, Sent.errObj canceledError) := by
  rw [executeProxy_eq_ok rb _ pd hpd]
  exact renderCatch_canceled

theorem executeProxy_prepFail_mp (rb : ReqBody) (e : AxiosError)
    (hm : isMultipart rb.headers = true)
    (hpe : prepareData rb.headers rb.data = Except.error e) (up : UpstreamBehavior) :
    executeProxy rb up = (renderCatch e, [Step.decodeStep]) := by
  unfold executeProxy
  rw [hpe, if_pos hm]

theorem prepareData_multipart_raw (hs : List (String × String)) (t : DataField)
    (hm : isMultipart hs = true) :
    prepareData hs (.raw t) =
      (match decodeDataUrl t.value with
       | .ok bs => .ok (.formData [⟨t.key, bs, t.name⟩])
       | .error e => .error ⟨none, none, false, e.message⟩) := by
  unfold prepareData
  rw [if_pos hm]

theorem prepareData_not_multipart (hs : List (String × String)) (d : BodyData)
    (hm : isMultipart hs = false) :
    prepareData hs d = .ok (.passthrough d) := by
  unfold prepareData
  rw [if_neg (by simp [hm])]

/-! ## Claim theorems -/

/-- C1: when the upstream answers with a status outside 2xx, the handler
replies with the upstream's exact status and exact body
(`res.status(error.response.status).send(error.response.data)`), never a
generic translation; and the transport-failure reply (503 carrying the raw
request object) arises only from an upstream that produced no response at
all. -/
theorem claim_c1_upstream_error_exact (rb : ReqBody) (s : Nat)
    (hh : List (String × String)) (d : String)
    (hp : prepSucceeds rb = true) (hs : inSuccessRange s = false) :
    (executeProxy rb (.responds s hh d)).1 = (s, Sent.data d) ∧
    (∀ up : UpstreamBehavior, (executeProxy rb up).1 = (503, Sent.reqObj) →
      ∃ c, up = UpstreamBehavior.noResponse c) := by
  obtain ⟨pd, hpd⟩ := prepSucceeds_ok rb hp
  refine ⟨executeProxy_responds_bad rb pd hpd s hh d hs, ?_⟩
  intro up hout
  cases up with
  | responds s2 hh2 d2 =>
      cases hsr : inSuccessRange s2 with
      | true =>
          rw [executeProxy_responds_ok rb pd hpd s2 hh2 d2 hsr] at hout
          exact absurd hout (by simp)
      | false =>
          rw [executeProxy_responds_bad rb pd hpd s2 hh2 d2 hsr] at hout
          exact absurd hout (by simp)
  | noResponse c => exact ⟨c, rfl⟩
  | hangs =>
      rw [executeProxy_hangs rb pd hpd] at hout
      exact absurd hout (by simp)

/-- Witness for C1: a plain request against an upstream that answers 500
with body `oops` is proxied back as exactly 500 with `oops`. -/
theorem claim_c1_witness :
    prepSucceeds rbPlain = true ∧ inSuccessRange 500 = false ∧
    (executeProxy rbPlain (.responds 500 [] "oops")).1 = (500, Sent.data "oops") :=
  ⟨rfl, rfl, (claim_c1_upstream_error_exact rbPlain 500 [] "oops" rfl rfl).1⟩

/-- C2 counterexample: a transport failure is answered 503 with the raw
request object, not with the low-level cause as diagnostic text — two
different causes produce the identical reply, and the reply carries no
message payload. -/
theorem claim_c2_counterexample :
    (executeProxy rbPlain (.noResponse "connect ECONNREFUSED 127.0.0.1:80")).1
      = (503, Sent.reqObj) ∧
    (executeProxy rbPlain (.noResponse "getaddrinfo ENOTFOUND example.invalid")).1
      = (503, Sent.reqObj) ∧
    Sent.reqObj ≠ Sent.msg "connect ECONNREFUSED 127.0.0.1:80" := by
  decide

/-- C2 amended: with the body prepared and the call made, the reply is the
rendering of the spec's priority classifier — timeout first, then transport
failure (answered 503 with the raw request object, the cause dropped), then
upstream error with exact status and body, else success — and exactly one
of the four cases applies, the upstream behaviours being mutually
exclusive. -/
theorem claim_c2_priority_classification (rb : ReqBody) (up : UpstreamBehavior)
    (hp : prepSucceeds rb = true)
    (hnc : ∀ c, up = UpstreamBehavior.noResponse c → c ≠ "ERR_CANCELED") :
    (executeProxy rb up).1 = renderOutcome (specClassify up) := by
  obtain ⟨pd, hpd⟩ := prepSucceeds_ok rb hp
  cases up with
  | responds s hh d =>
      cases hsr : inSuccessRange s with
      | true =>
          rw [executeProxy_responds_ok rb pd hpd s hh d hsr]
          simp [specClassify, renderOutcome, hsr]
      | false =>
          rw [executeProxy_responds_bad rb pd hpd s hh d hsr]
          simp [specClassify, renderOutcome, hsr]
  | noResponse c =>
      rw [executeProxy_noResponse rb pd hpd c (hnc c rfl)]
      simp [specClassify, renderOutcome]
  | hangs =>
      rw [executeProxy_hangs rb pd hpd]
      simp [specClassify, renderOutcome]

/-- Witness for C2 at a 204 upstream reply. -/
theorem claim_c2_witness :
    prepSucceeds rbPlain = true ∧
    (executeProxy rbPlain (.responds 204 [] "no content")).1
      = renderOutcome (specClassify (.responds 204 [] "no content")) := by
  refine ⟨rfl, claim_c2_priority_classification rbPlain _ rfl ?_⟩
  intro c hc
  exact absurd hc (by simp)

/-- C3 counterexample: the deadline is not a per-call parameter — the
handler derives the abort delay from the fixed `App` field alone, so two
different request bodies receive the identical 60000 ms deadline. -/
theorem claim_c3_counterexample :
    requestAbortDelay mkApp rbPlain = 60000 ∧
    requestAbortDelay mkApp rbBadMultipart = 60000 ∧
    rbPlain ≠ rbBadMultipart := by
  decide

/-- C3 amended: the deadline is the server-wide `this.timeout` of 60000 ms,
identical for every request; when it elapses while the call is in flight,
the abort signal cancels the call and the handler answers 408 with the
canceled error — a classified outcome, not a hang. -/
theorem claim_c3_fixed_deadline_timeout (rb : ReqBody)
    (hp : prepSucceeds rb = true) :
    requestAbortDelay mkApp rb = timeoutDefault ∧
    (executeProxy rb .hangs).1 = (408, Sent.errObj canceledError) := by
  obtain ⟨pd, hpd⟩ := prepSucceeds_ok rb hp
  exact ⟨rfl, executeProxy_hangs rb pd hpd⟩

/-- Witness for C3 at a concrete request. -/
theorem claim_c3_witness :
    prepSucceeds rbPlain = true ∧
    requestAbortDelay mkApp rbPlain = timeoutDefault ∧
    (executeProxy rbPlain .hangs).1 = (408, Sent.errObj canceledError) :=
  ⟨rfl, (claim_c3_fixed_deadline_timeout rbPlain rfl).1,
    (claim_c3_fixed_deadline_timeout rbPlain rfl).2⟩

/-- C4 counterexample: the upstream answers 201 with a header, but the
handler replies `res.status(200).send(result.data)` — status 200 and the
body only; the upstream's own status code is not carried. -/
theorem claim_c4_counterexample :
    (executeProxy rbPlain (.responds 201 [("X-Upstream", "yes")] "created")).1
      = (200, Sent.data "created") ∧ (200 : Nat) ≠ 201 := by
  decide

/-- C4 amended: for every 2xx upstream response the handler replies with
status 200 — not the upstream's own status — and with the upstream's body
alone; the upstream's headers do not appear in the reply (the reply is the
same for every upstream header list). -/
theorem claim_c4_success_forwards_body_only (rb : ReqBody) (s : Nat)
    (hh : List (String × String)) (d : String)
    (hp : prepSucceeds rb = true) (hs : inSuccessRange s = true) :
    (executeProxy rb (.responds s hh d)).1 = (200, Sent.data d) := by
  obtain ⟨pd, hpd⟩ := prepSucceeds_ok rb hp
  exact executeProxy_responds_ok rb pd hpd s hh d hs

/-- Witness for C4 at a 201 upstream reply. -/
theorem claim_c4_witness :
    prepSucceeds rbPlain = true ∧ inSuccessRange 201 = true ∧
    (executeProxy rbPlain (.responds 201 [("X-Upstream", "yes")] "created")).1
      = (200, Sent.data "created") :=
  ⟨rfl, rfl, claim_c4_success_forwards_body_only rbPlain 201
    [("X-Upstream", "yes")] "created" rfl rfl⟩

/-- C5 counterexample: an invalid document aborts the import, but the error
is not surfaced to the caller verbatim — the endpoint replies 500 with the
fixed text `Failed to parse openapi spec`, not with the validator's own
message. -/
theorem claim_c5_counterexample :
    postCollection validateReject resolveTrivial "openapi: 3.0.0" =
      (500, CollectionResp.errText "Failed to parse openapi spec") ∧
    CollectionResp.errText "Failed to parse openapi spec" ≠
      CollectionResp.errText "swagger-parser: info is a required property" := by
  decide

/-- C5 amended: `SwaggerParser.validate` runs before `JsonRefs.resolveRefs`
and any failing stage aborts the whole import: a validation failure stops
the trace at validation (resolution never runs), a resolution failure stops
it at resolution, in both cases the import carries that error and the
caller receives 500 with the generic text `Failed to parse openapi spec`
instead of the verbatim error; and a collection is handed back only when
every stage succeeded — it is then the complete collection built from the
validated title, the verbatim spec text and the parsed nodes, so no partial
collection is ever returned. -/
theorem claim_c5_any_stage_abort_generic (validate : String → Except String ApiDoc)
    (resolveRefs : ApiDoc → Except String ResolvedDoc) (txt : String) :
    (∀ e, validate txt = .error e →
      createCollection validate resolveRefs txt =
        (.error e, [ImportStep.validateStep]) ∧
      postCollection validate resolveRefs txt =
        (500, .errText "Failed to parse openapi spec")) ∧
    (∀ api e, validate txt = .ok api → resolveRefs api = .error e →
      createCollection validate resolveRefs txt =
        (.error e, [ImportStep.validateStep, ImportStep.resolveStep]) ∧
      postCollection validate resolveRefs txt =
        (500, .errText "Failed to parse openapi spec")) ∧
    (∀ n c, postCollection validate resolveRefs txt = (n, .okJson c) →
      n = 200 ∧ ∃ api resolved, validate txt = .ok api ∧
        resolveRefs api = .ok resolved ∧
        c = { name := api.title, collection := txt,
              nodes := collectionParse resolved }) := by
  refine ⟨?_, ?_, ?_⟩
  · intro e hv
    have h1 : createCollection validate resolveRefs txt =
        (.error e, [ImportStep.validateStep]) := by
      unfold createCollection
      rw [hv]
    refine ⟨h1, ?_⟩
    unfold postCollection
    rw [h1]
  · intro api e hv hr
    have h1 : createCollection validate resolveRefs txt =
        (.error e, [ImportStep.validateStep, ImportStep.resolveStep]) := by
      simp only [createCollection, hv, hr]
    refine ⟨h1, ?_⟩
    unfold postCollection
    rw [h1]
  · intro n c hpc
    cases hv : validate txt with
    | error e =>
        have h1 : createCollection validate resolveRefs txt =
            (.error e, [ImportStep.validateStep]) := by
          unfold createCollection
          rw [hv]
        have hpost : postCollection validate resolveRefs txt =
            (500, .errText "Failed to parse openapi spec") := by
          unfold postCollection
          rw [h1]
        rw [hpost] at hpc
        exact absurd hpc (by simp)
    | ok api =>
        cases hr : resolveRefs api with
        | error e =>
            have h1 : createCollection validate resolveRefs txt =
                (.error e, [ImportStep.validateStep, ImportStep.resolveStep]) := by
              simp only [createCollection, hv, hr]
            have hpost : postCollection validate resolveRefs txt =
                (500, .errText "Failed to parse openapi spec") := by
              unfold postCollection
              rw [h1]
            rw [hpost] at hpc
            exact absurd hpc (by simp)
        | ok resolved =>
            have h1 : createCollection validate resolveRefs txt =
                (.ok { name := api.title, collection := txt,
                       nodes := collectionParse resolved },
                 [ImportStep.validateStep, ImportStep.resolveStep,
                  ImportStep.parseStep]) := by
              simp only [createCollection, hv, hr]
            have hpost : postCollection validate resolveRefs txt =
                (200, .okJson { name := api.title, collection := txt,
                                nodes := collectionParse resolved }) := by
              unfold postCollection
              rw [h1]
            rw [hpost] at hpc
            simp only [Prod.mk.injEq, CollectionResp.okJson.injEq] at hpc
            obtain ⟨hn, hc⟩ := hpc
            exact ⟨hn.symm, api, resolved, rfl, hr, hc.symm⟩

/-- Witness for C5: a rejecting validator and, separately, an accepting
validator with a rejecting resolver both end in the generic 500 reply, the
latter with the trace stopping at the resolution stage. -/
theorem claim_c5_witness :
    validateReject "spec text" =
      .error "swagger-parser: info is a required property" ∧
    postCollection validateReject resolveTrivial "spec text" =
      (500, .errText "Failed to parse openapi spec") ∧
    validateAccept "spec text" = .ok { title := "Swagger Petstore" } ∧
    resolveReject { title := "Swagger Petstore" } =
      .error "json-refs: unable to resolve reference" ∧
    createCollection validateAccept resolveReject "spec text" =
      (.error "json-refs: unable to resolve reference",
       [ImportStep.validateStep, ImportStep.resolveStep]) ∧
    postCollection validateAccept resolveReject "spec text" =
      (500, .errText "Failed to parse openapi spec") := by
  refine ⟨rfl, ?_, rfl, rfl, ?_, ?_⟩
  · exact ((claim_c5_any_stage_abort_generic validateReject resolveTrivial
      "spec text").1 _ rfl).2
  · exact ((claim_c5_any_stage_abort_generic validateAccept resolveReject
      "spec text").2.1 _ _ rfl rfl).1
  · exact ((claim_c5_any_stage_abort_generic validateAccept resolveReject
      "spec text").2.1 _ _ rfl rfl).2

/-- C6: on the multipart path the data-URL decode is the first step of
every trace (it happens before the network call begins), and a decode
failure is answered 400 with the failure message while the network step
never runs. -/
theorem claim_c6_decode_before_network (rb : ReqBody) (t : DataField)
    (up : UpstreamBehavior)
    (hd : rb.data = .raw t) (hm : isMultipart rb.headers = true) :
    (executeProxy rb up).2.head? = some Step.decodeStep ∧
    (∀ e, decodeDataUrl t.value = .error e →
      (executeProxy rb up).1 = (400, Sent.msg e.message) ∧
      Step.networkStep ∉ (executeProxy rb up).2) := by
  cases hdec : decodeDataUrl t.value with
  | error e0 =>
      have hpe : prepareData rb.headers rb.data =
          .error ⟨none, none, false, e0.message⟩ := by
        rw [hd, prepareData_multipart_raw rb.headers t hm, hdec]
      rw [executeProxy_prepFail_mp rb _ hm hpe up]
      refine ⟨rfl, ?_⟩
      intro e he
      injection he with he0
      subst he0
      refine ⟨?_, ?_⟩
      · exact renderCatch_noCodeNoResp e0.message (decodeErr_message_nonempty e0)
      · show Step.networkStep ∉ [Step.decodeStep]
        decide
  | ok bs =>
      have hpo : prepareData rb.headers rb.data =
          .ok (.formData [⟨t.key, bs, t.name⟩]) := by
        rw [hd, prepareData_multipart_raw rb.headers t hm, hdec]
      refine ⟨?_, ?_⟩
      · rw [executeProxy_eq_ok rb up _ hpo]
        cases hax : axiosCall up with
        | ok r => rw [if_pos hm]; rfl
        | error e => rw [if_pos hm]; rfl
      · intro e he
        exact absurd he (by simp)

/-- Witness for C6: a multipart request whose data value is not a data URL
is rejected 400 with the fetch failure message and no network step. -/
theorem claim_c6_witness :
    isMultipart rbBadMultipart.headers = true ∧
    decodeDataUrl "not a data url" = .error .notDataUrl ∧
    (executeProxy rbBadMultipart .hangs).1 =
      (400, Sent.msg DecodeErr.notDataUrl.message) ∧
    Step.networkStep ∉ (executeProxy rbBadMultipart .hangs).2 := by
  have h := claim_c6_decode_before_network rbBadMultipart
    ⟨"file", "not a data url", "f.png"⟩ .hangs rfl rfl
  have h2 := h.2 DecodeErr.notDataUrl rfl
  exact ⟨rfl, rfl, h2.1, h2.2⟩

/-- C8 counterexample: at the claim's own example the encoder does not
produce a two-part body — the multipart branch appends exactly one part,
built from the single (key, value, name) triple, and a part list of length
two is never produced. -/
theorem claim_c8_counterexample :
    prepareData [("Content-type", "multipart/form-data")]
        (.raw ⟨"key", mkDataUrl [1, 2, 3], "f.png"⟩) =
      .ok (.formData [⟨"key", [1, 2, 3], "f.png"⟩]) ∧
    ([(⟨"key", [1, 2, 3], "f.png"⟩ : FormPart)]).length ≠ 2 := by
  constructor
  · rw [prepareData_multipart_raw [("Content-type", "multipart/form-data")]
      ⟨"key", mkDataUrl [1, 2, 3], "f.png"⟩ rfl]
    show (match decodeDataUrl (mkDataUrl [1, 2, 3]) with
          | .ok bs => Except.ok (ProcessedData.formData [⟨"key", bs, "f.png"⟩])
          | .error e =>
              Except.error (⟨none, none, false, e.message⟩ : AxiosError)) =
        Except.ok (ProcessedData.formData [⟨"key", [1, 2, 3], "f.png"⟩])
    rw [decodeDataUrl_mkDataUrl [1, 2, 3] (by decide)]
  · decide

/-- C8 amended: the multipart body carries exactly the one declared part,
and that part round-trips exactly — field name, decoded value bytes and
filename are those of the (key, value, name) triple — for every byte
sequence. -/
theorem claim_c8_single_part_roundtrip (hs : List (String × String))
    (key name : String) (bs : List Nat)
    (hm : isMultipart hs = true) (hb : ∀ b ∈ bs, b < 256) :
    prepareData hs (.raw ⟨key, mkDataUrl bs, name⟩) =
      .ok (.formData [⟨key, bs, name⟩]) := by
  rw [prepareData_multipart_raw hs _ hm]
  show (match decodeDataUrl (mkDataUrl bs) with
        | .ok bs2 => Except.ok (ProcessedData.formData [⟨key, bs2, name⟩])
        | .error e =>
            Except.error (⟨none, none, false, e.message⟩ : AxiosError)) =
      Except.ok (ProcessedData.formData [⟨key, bs, name⟩])
  rw [decodeDataUrl_mkDataUrl bs hb]

/-- Witness for C8 with the two bytes 104, 105. -/
theorem claim_c8_witness :
    isMultipart [("Content-type", "multipart/form-data")] = true ∧
    (∀ b ∈ [104, 105], b < 256) ∧
    prepareData [("Content-type", "multipart/form-data")]
        (.raw ⟨"file", mkDataUrl [104, 105], "f.png"⟩) =
      .ok (.formData [⟨"file", [104, 105], "f.png"⟩]) :=
  ⟨rfl, by decide,
    claim_c8_single_part_roundtrip [("Content-type", "multipart/form-data")]
      "file" "f.png" [104, 105] rfl (by decide)⟩

/-- C9: the spec-modelled CollectionUtil.parse is deterministic and its
node ids are a function of method and path alone — two resolved documents
whose operations agree on method and path (summaries may differ) compile
to node lists with identical ids in identical order, so two runs on one
document agree; and every emitted node's id is exactly `nodeId` of its
method and path. -/
theorem claim_c9_deterministic_ids (d1 d2 : ResolvedDoc)
    (h : d1.operations.map (fun o => (o.method, o.path)) =
         d2.operations.map (fun o => (o.method, o.path))) :
    (collectionParse d1).map RequestNode.id =
      (collectionParse d2).map RequestNode.id ∧
    ∀ n ∈ collectionParse d1, n.id = nodeId n.method n.path := by
  constructor
  · have h1 : ∀ d : ResolvedDoc, (collectionParse d).map RequestNode.id =
        (d.operations.map (fun o => (o.method, o.path))).map
          (fun p => nodeId p.1 p.2) := by
      intro d
      simp [collectionParse, List.map_map]
    rw [h1 d1, h1 d2, h]
  · intro n hn
    simp only [collectionParse, List.mem_map] at hn
    obtain ⟨op, _, rfl⟩ := hn
    rfl

/-- Witness for C9: the documents `docA` and `docB` differ in summaries
only and compile to the same ids in the same order. -/
theorem claim_c9_witness :
    docA.operations.map (fun o => (o.method, o.path)) =
      docB.operations.map (fun o => (o.method, o.path)) ∧
    (collectionParse docA).map RequestNode.id =
      (collectionParse docB).map RequestNode.id :=
  ⟨rfl, (claim_c9_deterministic_ids docA docB rfl).1⟩

/-- C10 counterexample: a request whose content-type header matches exactly
but whose `data` is not the single triple is not forwarded unmodified —
the multipart branch is still taken and fails, the handler answering 400
with the fetch failure message and performing no network step. -/
theorem claim_c10_counterexample :
    prepareData [("Content-type", "multipart/form-data")] (.other "[1, 2]") ≠
      .ok (.passthrough (.other "[1, 2]")) ∧
    (executeProxy ⟨[("Content-type", "multipart/form-data")], .other "[1, 2]"⟩
        (.responds 200 [] "ok")).1
      = (400, Sent.msg "Failed to parse URL from undefined") ∧
    Step.networkStep ∉
      (executeProxy ⟨[("Content-type", "multipart/form-data")], .other "[1, 2]"⟩
        (.responds 200 [] "ok")).2 := by
  refine ⟨?_, ?_, ?_⟩
  · have hval : prepareData [("Content-type", "multipart/form-data")]
        (.other "[1, 2]") =
        .error ⟨none, none, false, "Failed to parse URL from undefined"⟩ := rfl
    rw [hval]
    simp
  · rfl
  · decide

/-- C10 amended: the multipart path is taken exactly when the header
mapping holds the exact key `Content-type` with the exact value
`multipart/form-data` (case-sensitive); in that case the encoded body is
exactly the one part built from the (key, value, name) triple; a request
whose header differs (in key or value casing, or otherwise) has its body
passed through unmodified; and a multipart-flagged request whose `data` is
not the single triple fails instead of being forwarded. -/
theorem claim_c10_dispatch (hs : List (String × String)) (d : BodyData) :
    (isMultipart hs = true ↔
      headerLookup hs "Content-type" = some "multipart/form-data") ∧
    (isMultipart hs = false → prepareData hs d = .ok (.passthrough d)) ∧
    (∀ t bs, isMultipart hs = true → d = .raw t →
      decodeDataUrl t.value = .ok bs →
      prepareData hs d = .ok (.formData [⟨t.key, bs, t.name⟩])) ∧
    (∀ s, isMultipart hs = true → d = .other s →
      prepareData hs d =
        .error ⟨none, none, false, "Failed to parse URL from undefined"⟩) := by
  refine ⟨?_, ?_, ?_, ?_⟩
  · simp [isMultipart]
  · intro hm
    exact prepareData_not_multipart hs d hm
  · intro t bs hm hd hdec
    subst hd
    rw [prepareData_multipart_raw hs t hm, hdec]
  · intro s hm hd
    subst hd
    unfold prepareData
    rw [if_pos hm]

/-- Witness for C10: a header differing only in key casing is not
dispatched to the multipart path and its body passes through unmodified;
value casing likewise prevents dispatch. -/
theorem claim_c10_witness :
    isMultipart [("Content-Type", "multipart/form-data")] = false ∧
    prepareData [("Content-Type", "multipart/form-data")] (.other "body") =
      .ok (.passthrough (.other "body")) ∧
    isMultipart [("Content-type", "Multipart/Form-Data")] = false :=
  ⟨rfl, (claim_c10_dispatch [("Content-Type", "multipart/form-data")]
    (.other "body")).2.1 rfl, rfl⟩
